import Mathlib

/-!
Shallow embedding of the event-booking backend (two Express/PostgreSQL server
variants).  Rows of the three tables become structures, the database state is a
record of row lists plus the SERIAL counters, and each route handler becomes a
pure function from a request and a state to a response and a new state.  SQL
statements are translated one by one: `SELECT ... WHERE p` with `rows[0]` is
`List.find?`, `UPDATE ... WHERE p` is `List.map` guarded by `p`, `DELETE ...
WHERE p` is `List.filter` by `¬ p`, and `INSERT` appends a row carrying the
next serial id.  The UNIQUE constraints of `initializeDatabase` are modelled at
the insert/update level (a violating statement fails with error code 23505,
which the handlers translate as the code does).
-/

namespace EventDb

/-- Row of the `users` table (`password` stores only the hash). -/
structure UserRow where
  id : Nat
  name : String
  email : String
  password : String
  deriving Repr, DecidableEq

/-- Row of the `events` table. -/
structure EventRow where
  id : Nat
  title : String
  description : Option String
  date : Int
  location : String
  available_seats : Int
  user_id : Nat
  deriving Repr, DecidableEq

/-- Row of the `bookings` table. -/
structure BookingRow where
  id : Nat
  event_id : Nat
  user_id : Nat
  seats : Int
  deriving Repr, DecidableEq

/-- The whole persisted state: the three tables plus the SERIAL counters. -/
structure DB where
  users : List UserRow
  events : List EventRow
  bookings : List BookingRow
  nextUserId : Nat
  nextEventId : Nat
  nextBookingId : Nat
  deriving Repr, DecidableEq

/-- The error taxonomy of the handlers (each maps to one HTTP error body). -/
inductive ApiErr where
  | InvalidSeatCount
  | AlreadyBooked
  | NotFound
  | InsufficientSeats
  | NotFoundOrForbidden
  | DuplicateEmail
  | InvalidCredentials
  | Internal
  deriving Repr, DecidableEq

/-- HTTP status each taxonomy entry is returned with. -/
def ApiErr.status : ApiErr → Nat
  | .InvalidSeatCount => 400
  | .AlreadyBooked => 400
  | .InsufficientSeats => 400
  | .DuplicateEmail => 400
  | .NotFound => 404
  | .NotFoundOrForbidden => 404
  | .InvalidCredentials => 401
  | .Internal => 500

/-- Claims embedded in a login token (`jwt.sign({ id, email }, ...)`). -/
structure Claims where
  id : Nat
  email : String
  deriving Repr, DecidableEq

/-- Opaque signed token; signing wraps the claims, verifying unwraps them. -/
structure Token where
  claims : Claims
  deriving Repr, DecidableEq

/-- Model of `jwt.sign`: an opaque signed capability carrying the claims. -/
def jwtSign (c : Claims) : Token := ⟨c⟩

/-- Model of `jwt.verify` on a well-formed token: recovers the claims. -/
def jwtDecode (t : Token) : Claims := t.claims

/-- POST /api/register: hash the password, insert the user; the UNIQUE email
constraint turns a duplicate into error 23505, answered as `DuplicateEmail`. -/
def registerUser (hashFn : String → String) (db : DB) (name email password : String) :
    Except ApiErr UserRow × DB :=
  if db.users.any (fun u => u.email == email) then
    (.error .DuplicateEmail, db)
  else
    let u : UserRow := ⟨db.nextUserId, name, email, hashFn password⟩
    (.ok u, { db with users := db.users ++ [u], nextUserId := db.nextUserId + 1 })

/-- POST /api/login: look the user up by email, compare the password against
the stored hash (`verify` models `bcrypt.compare`), and on success issue a
token embedding `{ id, email }`.  Unknown email and hash mismatch return the
same `InvalidCredentials` error. -/
def login (verify : String → String → Bool) (db : DB) (email password : String) :
    Except ApiErr (Token × UserRow) :=
  match db.users.find? (fun u => u.email == email) with
  | none => .error .InvalidCredentials
  | some u =>
      if verify password u.password then
        .ok (jwtSign ⟨u.id, u.email⟩, u)
      else
        .error .InvalidCredentials

/-- PUT /api/profile: `UPDATE users SET name = $1, email = $2[, password = $3]
WHERE id = uid`.  When the body has no (truthy) password the password column is
left out of the SET list.  If no row matches the id the handler answers 404; if
the new email collides with a different user's email the UNIQUE constraint
fires (23505) and the handler answers `DuplicateEmail`, changing nothing. -/
def updateProfile (hashFn : String → String) (db : DB) (uid : Nat)
    (name email : String) (password : Option String) :
    Except ApiErr UserRow × DB :=
  if db.users.all (fun u => u.id != uid) then
    (.error .NotFound, db)
  else if db.users.any (fun u => u.email == email && u.id != uid) then
    (.error .DuplicateEmail, db)
  else
    let setRow : UserRow → UserRow := fun u =>
      if u.id == uid then
        { u with name := name, email := email,
                 password := match password with
                   | some p => if p == "" then u.password else hashFn p
                   | none => u.password }
      else u
    let users' := db.users.map setRow
    ((users'.find? (fun u => u.id == uid)).elim (.error .NotFound) .ok,
     { db with users := users' })

/-- POST /api/events: insert the row with the supplied fields; no validation of
`available_seats` is performed. -/
def createEvent (db : DB) (uid : Nat) (title : String) (description : Option String)
    (date : Int) (location : String) (available_seats : Int) : EventRow × DB :=
  let e : EventRow := ⟨db.nextEventId, title, description, date, location, available_seats, uid⟩
  (e, { db with events := db.events ++ [e], nextEventId := db.nextEventId + 1 })

/-- PUT /api/events/:id: `UPDATE events SET ... WHERE id = eid AND user_id =
uid RETURNING *`; zero updated rows answer 404.  No validation of
`available_seats` is performed. -/
def updateEvent (db : DB) (uid eid : Nat) (title : String) (description : Option String)
    (date : Int) (location : String) (available_seats : Int) :
    Except ApiErr EventRow × DB :=
  let setRow : EventRow → EventRow := fun e =>
    if e.id == eid && e.user_id == uid then
      { e with title := title, description := description, date := date,
               location := location, available_seats := available_seats }
    else e
  if db.events.any (fun e => e.id == eid && e.user_id == uid) then
    let events' := db.events.map setRow
    ((events'.find? (fun e => e.id == eid && e.user_id == uid)).elim
       (.error .NotFoundOrForbidden) .ok,
     { db with events := events' })
  else
    (.error .NotFoundOrForbidden, db)

/-- DELETE /api/events/:id: the handler FIRST runs `DELETE FROM bookings WHERE
event_id = eid` (no ownership scope), THEN `DELETE FROM events WHERE id = eid
AND user_id = uid RETURNING *`; zero deleted event rows answer 404 — but the
booking deletion has already taken effect. -/
def deleteEvent (db : DB) (uid eid : Nat) : Except ApiErr Unit × DB :=
  if db.events.any (fun e => e.id == eid && e.user_id == uid) then
    (.ok (), { db with
        bookings := db.bookings.filter (fun b => !(b.event_id == eid)),
        events := db.events.filter (fun e => !(e.id == eid && e.user_id == uid)) })
  else
    (.error .NotFoundOrForbidden,
     { db with bookings := db.bookings.filter (fun b => !(b.event_id == eid)) })

/-- POST /api/rooms: `UPDATE events SET location = newName WHERE location =
oldName AND user_id = uid`; zero updated rows answer 404. -/
def renameRoom (db : DB) (uid : Nat) (oldName newName : String) :
    Except ApiErr Unit × DB :=
  if db.events.any (fun e => e.location == oldName && e.user_id == uid) then
    (.ok (), { db with events := db.events.map (fun e =>
        if e.location == oldName && e.user_id == uid then { e with location := newName } else e) })
  else
    (.error .NotFoundOrForbidden, db)

/-- DELETE /api/rooms/:name: delete the bookings of the caller's events at that
location, then those events; zero deleted event rows answer 404. -/
def deleteRoom (db : DB) (uid : Nat) (name : String) : Except ApiErr Unit × DB :=
  if db.events.any (fun e => e.location == name && e.user_id == uid) then
    (.ok (), { db with
        bookings := db.bookings.filter (fun b => !(db.events.any (fun e =>
          e.id == b.event_id && (e.location == name && e.user_id == uid)))),
        events := db.events.filter (fun e => !(e.location == name && e.user_id == uid)) })
  else
    (.error .NotFoundOrForbidden,
     { db with bookings := db.bookings.filter (fun b => !(db.events.any (fun e =>
         e.id == b.event_id && (e.location == name && e.user_id == uid)))) })

/-- The raw `INSERT INTO bookings` statement under the schema's
`UNIQUE (event_id, user_id)` constraint: inserting a second row for an already
booked (event, user) pair fails (SQLSTATE 23505) no matter what the
application checked before. -/
def insertBooking (db : DB) (eid uid : Nat) (seats : Int) :
    Except Unit (BookingRow × DB) :=
  if db.bookings.any (fun b => b.event_id == eid && b.user_id == uid) then
    .error ()
  else
    let bk : BookingRow := ⟨db.nextBookingId, eid, uid, seats⟩
    .ok (bk, { db with bookings := db.bookings ++ [bk],
                       nextBookingId := db.nextBookingId + 1 })

/-- POST /api/bookings (src/server.js, later variant): validate `seats > 0`,
reject an existing booking for (event, user), reject a missing event, reject
`available_seats < seats`, then insert the booking and decrement the event's
`available_seats` by `seats`.  A constraint violation on the insert falls into
the catch block (500 `Internal`). -/
def createBooking (db : DB) (uid eid : Nat) (seats : Int) :
    Except ApiErr BookingRow × DB :=
  if seats ≤ 0 then
    (.error .InvalidSeatCount, db)
  else if 0 < (db.bookings.filter (fun b => b.event_id == eid && b.user_id == uid)).length then
    (.error .AlreadyBooked, db)
  else
    match db.events.find? (fun e => e.id == eid) with
    | none => (.error .NotFound, db)
    | some ev =>
        if ev.available_seats < seats then
          (.error .InsufficientSeats, db)
        else
          match insertBooking db eid uid seats with
          | .error _ => (.error .Internal, db)
          | .ok (bk, db1) =>
              (.ok bk, { db1 with events := db1.events.map (fun e =>
                  if e.id == eid then { e with available_seats := e.available_seats - seats } else e) })

/-- POST /api/bookings of the simpler variant (src/unnamed/part_000): identical
to `createBooking` except that it performs NO positivity check on `seats`. -/
def createBookingSimple (db : DB) (uid eid : Nat) (seats : Int) :
    Except ApiErr BookingRow × DB :=
  if 0 < (db.bookings.filter (fun b => b.event_id == eid && b.user_id == uid)).length then
    (.error .AlreadyBooked, db)
  else
    match db.events.find? (fun e => e.id == eid) with
    | none => (.error .NotFound, db)
    | some ev =>
        if ev.available_seats < seats then
          (.error .InsufficientSeats, db)
        else
          match insertBooking db eid uid seats with
          | .error _ => (.error .Internal, db)
          | .ok (bk, db1) =>
              (.ok bk, { db1 with events := db1.events.map (fun e =>
                  if e.id == eid then { e with available_seats := e.available_seats - seats } else e) })

/-- PUT /api/bookings/:id: validate `seats > 0`; `SELECT * FROM bookings WHERE
id AND user_id` (404 if none); compute `seatDifference = seats - currentSeats`;
read the event's `available_seats` (a missing event row makes the JS handler
dereference `undefined` and 500); reject `available_seats < seatDifference`;
`UPDATE bookings SET seats WHERE id`; `UPDATE events SET available_seats =
available_seats - seatDifference WHERE id = event_id`. -/
def updateBooking (db : DB) (uid bid : Nat) (seats : Int) :
    Except ApiErr BookingRow × DB :=
  if seats ≤ 0 then
    (.error .InvalidSeatCount, db)
  else
    match db.bookings.find? (fun b => b.id == bid && b.user_id == uid) with
    | none => (.error .NotFoundOrForbidden, db)
    | some bk =>
        let seatDifference := seats - bk.seats
        match db.events.find? (fun e => e.id == bk.event_id) with
        | none => (.error .Internal, db)
        | some ev =>
            if ev.available_seats < seatDifference then
              (.error .InsufficientSeats, db)
            else
              (.ok { bk with seats := seats },
               { db with
                   bookings := db.bookings.map (fun b =>
                     if b.id == bid then { b with seats := seats } else b),
                   events := db.events.map (fun e =>
                     if e.id == bk.event_id then
                       { e with available_seats := e.available_seats - seatDifference }
                     else e) })

/-- DELETE /api/bookings/:id: `SELECT * FROM bookings WHERE id AND user_id`
(404 if none); `DELETE FROM bookings WHERE id AND user_id`; `UPDATE events SET
available_seats = available_seats + seats WHERE id = event_id`. -/
def cancelBooking (db : DB) (uid bid : Nat) : Except ApiErr Unit × DB :=
  match db.bookings.find? (fun b => b.id == bid && b.user_id == uid) with
  | none => (.error .NotFoundOrForbidden, db)
  | some bk =>
      (.ok (),
       { db with
           bookings := db.bookings.filter (fun b => !(b.id == bid && b.user_id == uid)),
           events := db.events.map (fun e =>
             if e.id == bk.event_id then
               { e with available_seats := e.available_seats + bk.seats }
             else e) })

/-- The empty freshly initialized database. -/
def initialDB : DB := ⟨[], [], [], 1, 1, 1⟩

/-- One mutating request of the later server variant, as a step relation on
database states (read-only routes do not change the state). -/
inductive Step : DB → DB → Prop
  | register (hashFn : String → String) (db : DB) (name email password : String) :
      Step db (registerUser hashFn db name email password).2
  | profile (hashFn : String → String) (db : DB) (uid : Nat) (name email : String)
      (password : Option String) :
      Step db (updateProfile hashFn db uid name email password).2
  | eventCreate (db : DB) (uid : Nat) (title : String) (description : Option String)
      (date : Int) (location : String) (available_seats : Int) :
      Step db (createEvent db uid title description date location available_seats).2
  | eventUpdate (db : DB) (uid eid : Nat) (title : String) (description : Option String)
      (date : Int) (location : String) (available_seats : Int) :
      Step db (updateEvent db uid eid title description date location available_seats).2
  | eventDelete (db : DB) (uid eid : Nat) :
      Step db (deleteEvent db uid eid).2
  | roomRename (db : DB) (uid : Nat) (oldName newName : String) :
      Step db (renameRoom db uid oldName newName).2
  | roomDelete (db : DB) (uid : Nat) (name : String) :
      Step db (deleteRoom db uid name).2
  | bookingCreate (db : DB) (uid eid : Nat) (seats : Int) :
      Step db (createBooking db uid eid seats).2
  | bookingUpdate (db : DB) (uid bid : Nat) (seats : Int) :
      Step db (updateBooking db uid bid seats).2
  | bookingCancel (db : DB) (uid bid : Nat) :
      Step db (cancelBooking db uid bid).2

/-- States reachable from the fresh database by mutating requests. -/
inductive Reachable : DB → Prop
  | init : Reachable initialDB
  | step {db db' : DB} : Reachable db → Step db db' → Reachable db'

/-! ### Invariant predicates -/

/-- Every event has a non-negative seat counter. -/
def eventsNonneg (db : DB) : Prop := ∀ e ∈ db.events, 0 ≤ e.available_seats

/-- Every booking has a non-negative seat count. -/
def bookingSeatsNonneg (db : DB) : Prop := ∀ b ∈ db.bookings, 0 ≤ b.seats

/-- Event ids are pairwise distinct (the `SERIAL PRIMARY KEY`). -/
def eventIdsNodup (db : DB) : Prop := (db.events.map EventRow.id).Nodup

/-- The (event_id, user_id) pairs of the booking rows. -/
def bookingPairs (db : DB) : List (Nat × Nat) :=
  db.bookings.map (fun b => (b.event_id, b.user_id))

/-- At most one booking row per (event_id, user_id) pair: the list of pairs
has no duplicate (the schema's `UNIQUE (event_id, user_id)`). -/
def bookingPairsNodup (db : DB) : Prop := (bookingPairs db).Nodup

/-! ### Concrete states used by witnesses and counterexamples -/

/-- One user (id 1), no events. -/
def dbU1 : DB := ⟨[⟨1, "Alice", "a@x", "ha"⟩], [], [], 2, 1, 1⟩

/-- One user (id 1) and one event (id 1, 5 available seats, owned by 1). -/
def dbE5 : DB := ⟨[⟨1, "Alice", "a@x", "ha"⟩], [⟨1, "T", none, 0, "L", 5, 1⟩], [], 2, 2, 1⟩

/-- `dbE5` after user 1 booked 2 seats on event 1. -/
def dbE5B : DB :=
  ⟨[⟨1, "Alice", "a@x", "ha"⟩], [⟨1, "T", none, 0, "L", 3, 1⟩], [⟨1, 1, 1, 2⟩], 2, 2, 2⟩

/-- Two users and an event (id 1) owned by user 2, booked by user 2. -/
def dbOther : DB :=
  ⟨[⟨1, "Alice", "a@x", "ha"⟩, ⟨2, "Bob", "b@x", "hb"⟩],
   [⟨1, "T", none, 0, "L", 3, 2⟩], [⟨1, 1, 2, 2⟩], 3, 2, 2⟩

/-- Two users with distinct emails (for the profile-update counterexample). -/
def dbTwoUsers : DB :=
  ⟨[⟨1, "Alice", "a@x", "ha"⟩, ⟨2, "Bob", "b@x", "hb"⟩], [], [], 3, 1, 1⟩

/-- The identity taken as a stand-in hash function in concrete runs. -/
def idHash : String → String := fun s => s

/-- Password check used in concrete runs: the stored hash is the password
itself under `idHash`. -/
def idVerify : String → String → Bool := fun p h => p == h

/-- Reachable chain for the seat-negativity counterexample, step 1:
register user 1. -/
def dbNeg1 : DB := (registerUser idHash initialDB "A" "a@x" "p").2

/-- Step 2: user 1 creates event 1 with 5 available seats. -/
def dbNeg2 : DB := (createEvent dbNeg1 1 "T" none 0 "L" 5).2

/-- Step 3: user 1 books 2 seats on event 1 (3 seats left). -/
def dbNeg3 : DB := (createBooking dbNeg2 1 1 2).2

/-- Step 4: user 1 updates event 1 setting `available_seats := -3`
(no validation stops this). -/
def dbNeg4 : DB := (updateEvent dbNeg3 1 1 "T" none 0 "L" (-3)).2

end EventDb

namespace EventDb

/-! ### List helper lemmas -/

/-- `find?` commutes with a map that does not change the predicate's verdict. -/
theorem find?_map_pres {α : Type} (f : α → α) (p : α → Bool)
    (hp : ∀ x, p (f x) = p x) :
    ∀ l : List α, (l.map f).find? p = (l.find? p).map f := by
  intro l
  induction l with
  | nil => rfl
  | cons a t ih =>
      by_cases hpa : p a = true
      · simp [List.find?, hp a, hpa]
      · rw [Bool.not_eq_true] at hpa
        simp [List.find?, hp a, hpa, ih]

/-- A map that fixes every element of a list leaves the list unchanged. -/
theorem map_eq_self_of {α : Type} (f : α → α) (l : List α)
    (h : ∀ x ∈ l, f x = x) : l.map f = l := by
  induction l with
  | nil => rfl
  | cons a t ih =>
      simp only [List.map_cons, h a (by simp)]
      rw [ih (fun x hx => h x (by simp [hx]))]

/-- Filtering by the negation of `p` leaves nothing for `find? p` to find. -/
theorem find?_filter_not {α : Type} (p : α → Bool) (l : List α) :
    (l.filter (fun x => !(p x))).find? p = none := by
  rw [List.find?_eq_none]
  intro x hx
  have := (List.mem_filter.1 hx).2
  simp at this
  simp [this]

/-! ### Shared handler-equation lemmas -/

/-- Equation for the successful create-booking path: with positive requested
seats, no existing (event, user) booking, the event present and enough seats,
the handler inserts the booking row under the next serial id and decrements
the event's counter. -/
theorem createBooking_ok (db : DB) (uid eid : Nat) (k : Int) (ev : EventRow)
    (hev : db.events.find? (fun e => e.id == eid) = some ev)
    (hnb : db.bookings.filter (fun b => b.event_id == eid && b.user_id == uid) = [])
    (hk : 0 < k) (hkN : ¬ ev.available_seats < k) :
    createBooking db uid eid k =
      (.ok ⟨db.nextBookingId, eid, uid, k⟩,
       { users := db.users,
         events := db.events.map (fun e =>
           if e.id == eid then { e with available_seats := e.available_seats - k } else e),
         bookings := db.bookings ++ [⟨db.nextBookingId, eid, uid, k⟩],
         nextUserId := db.nextUserId,
         nextEventId := db.nextEventId,
         nextBookingId := db.nextBookingId + 1 }) := by
  have hlen : (db.bookings.filter (fun b => b.event_id == eid && b.user_id == uid)).length = 0 := by
    rw [hnb]; rfl
  have hany : db.bookings.any (fun b => b.event_id == eid && b.user_id == uid) = false := by
    rw [List.any_eq_false]
    intro b hb
    have := List.filter_eq_nil_iff.1 hnb b hb
    simpa using this
  unfold createBooking
  rw [if_neg (by omega), if_neg (by omega), hev]
  dsimp only
  rw [if_neg hkN]
  unfold insertBooking
  rw [if_neg (by simp [hany])]

end EventDb

namespace EventDb

/-! ### C1 -/

/-- C1: for an event with `available_seats = N` and a user holding no booking
on it, creating a booking with `0 < k ≤ N` seats succeeds and leaves the
event's `available_seats = N - k`; with `k > N` it fails with
`InsufficientSeats` and leaves the whole state (events and bookings)
unchanged.  (`k > 0` throughout: a booking's seat count is a positive integer;
a non-positive request is rejected up front as `InvalidSeatCount`.) -/
theorem createBooking_seat_accounting (db : DB) (uid eid : Nat) (k N : Int)
    (ev : EventRow)
    (hev : db.events.find? (fun e => e.id == eid) = some ev)
    (hN : ev.available_seats = N)
    (hnb : db.bookings.filter (fun b => b.event_id == eid && b.user_id == uid) = [])
    (hk : 0 < k) :
    (k ≤ N →
      (createBooking db uid eid k).1 = .ok ⟨db.nextBookingId, eid, uid, k⟩ ∧
      ((createBooking db uid eid k).2.events.find? (fun e => e.id == eid)).map
          EventRow.available_seats = some (N - k)) ∧
    (N < k →
      (createBooking db uid eid k).1 = .error .InsufficientSeats ∧
      (createBooking db uid eid k).2 = db) := by
  have hlen : (db.bookings.filter (fun b => b.event_id == eid && b.user_id == uid)).length = 0 := by
    rw [hnb]; rfl
  constructor
  · intro hkN
    rw [createBooking_ok db uid eid k ev hev hnb hk (by omega)]
    refine ⟨rfl, ?_⟩
    have hp : ∀ e : EventRow,
        ((if e.id == eid then { e with available_seats := e.available_seats - k } else e).id == eid)
          = (e.id == eid) := by
      intro e
      by_cases h : (e.id == eid) = true <;> simp [h]
    dsimp only
    rw [find?_map_pres _ _ hp, hev]
    have hid : ev.id = eid := by simpa using List.find?_some hev
    simp [hN, hid]
  · intro hNk
    have hyes : ev.available_seats < k := by omega
    unfold createBooking
    rw [if_neg (by omega), if_neg (by omega), hev]
    dsimp only
    rw [if_pos hyes]
    exact ⟨rfl, rfl⟩

/-- Witness for C1: booking 2 of 5 seats succeeds leaving 3; booking 9 of 5
fails with `InsufficientSeats` leaving the state unchanged. -/
theorem createBooking_seat_accounting_witness :
    ((createBooking dbE5 1 1 2).1 = .ok ⟨1, 1, 1, 2⟩ ∧
      ((createBooking dbE5 1 1 2).2.events.find? (fun e => e.id == 1)).map
          EventRow.available_seats = some 3) ∧
    ((createBooking dbE5 1 1 9).1 = .error .InsufficientSeats ∧
      (createBooking dbE5 1 1 9).2 = dbE5) :=
  ⟨by
    have h := (createBooking_seat_accounting dbE5 1 1 2 5 ⟨1, "T", none, 0, "L", 5, 1⟩
      (by decide) (by decide) (by decide) (by decide)).1 (by decide)
    simpa using h,
   (createBooking_seat_accounting dbE5 1 1 9 5 ⟨1, "T", none, 0, "L", 5, 1⟩
      (by decide) (by decide) (by decide) (by decide)).2 (by decide)⟩

/-! ### C6 -/

/-- C6: the create-booking handler performs its failure checks in a fixed
order: non-positive `seats` answers `InvalidSeatCount` regardless of any other
condition; then an existing booking for (event, user) answers `AlreadyBooked`;
then a missing event answers `NotFound`; then `available_seats < seats`
answers `InsufficientSeats`. -/
theorem createBooking_check_order (db : DB) (uid eid : Nat) (k : Int) :
    (k ≤ 0 → (createBooking db uid eid k).1 = .error .InvalidSeatCount) ∧
    (0 < k →
      0 < (db.bookings.filter (fun b => b.event_id == eid && b.user_id == uid)).length →
      (createBooking db uid eid k).1 = .error .AlreadyBooked) ∧
    (0 < k →
      (db.bookings.filter (fun b => b.event_id == eid && b.user_id == uid)).length = 0 →
      db.events.find? (fun e => e.id == eid) = none →
      (createBooking db uid eid k).1 = .error .NotFound) ∧
    (∀ ev : EventRow, 0 < k →
      (db.bookings.filter (fun b => b.event_id == eid && b.user_id == uid)).length = 0 →
      db.events.find? (fun e => e.id == eid) = some ev →
      ev.available_seats < k →
      (createBooking db uid eid k).1 = .error .InsufficientSeats) := by
  refine ⟨?_, ?_, ?_, ?_⟩
  · intro hk
    unfold createBooking
    rw [if_pos hk]
  · intro hk hb
    unfold createBooking
    rw [if_neg (by omega), if_pos hb]
  · intro hk hb hev
    unfold createBooking
    rw [if_neg (by omega), if_neg (by omega), hev]
  · intro ev hk hb hev hseats
    unfold createBooking
    rw [if_neg (by omega), if_neg (by omega), hev]
    dsimp only
    rw [if_pos hseats]

/-- Witness for C6 at concrete states. -/
theorem createBooking_check_order_witness :
    (createBooking dbE5 1 1 0).1 = .error .InvalidSeatCount ∧
    (createBooking dbE5B 1 1 2).1 = .error .AlreadyBooked ∧
    (createBooking dbU1 1 1 2).1 = .error .NotFound ∧
    (createBooking dbE5 1 1 9).1 = .error .InsufficientSeats :=
  ⟨(createBooking_check_order dbE5 1 1 0).1 (by decide),
   (createBooking_check_order dbE5B 1 1 2).2.1 (by decide) (by decide),
   (createBooking_check_order dbU1 1 1 2).2.2.1 (by decide) (by decide) (by decide),
   (createBooking_check_order dbE5 1 1 9).2.2.2 ⟨1, "T", none, 0, "L", 5, 1⟩
     (by decide) (by decide) (by decide) (by decide)⟩

end EventDb

namespace EventDb

/-! ### C4 -/

/-- C4: cancelling a booking of `k` seats that the requesting user holds
deletes the booking row (it is gone afterward) and adds exactly `k` back onto
the event's `available_seats`; when no booking matches both the id and the
user, the handler fails with `NotFoundOrForbidden` and the state is
unchanged. -/
theorem cancelBooking_restores_seats (db : DB) (uid bid : Nat) :
    (∀ (bk : BookingRow) (ev : EventRow),
      db.bookings.find? (fun b => b.id == bid && b.user_id == uid) = some bk →
      db.events.find? (fun e => e.id == bk.event_id) = some ev →
      (cancelBooking db uid bid).1 = .ok () ∧
      (cancelBooking db uid bid).2.bookings.find?
        (fun b => b.id == bid && b.user_id == uid) = none ∧
      (cancelBooking db uid bid).2.events.find? (fun e => e.id == bk.event_id) =
        some { ev with available_seats := ev.available_seats + bk.seats }) ∧
    (db.bookings.find? (fun b => b.id == bid && b.user_id == uid) = none →
      (cancelBooking db uid bid).1 = .error .NotFoundOrForbidden ∧
      (cancelBooking db uid bid).2 = db) := by
  constructor
  · intro bk ev hbk hev
    unfold cancelBooking
    rw [hbk]
    dsimp only
    refine ⟨rfl, ?_, ?_⟩
    · exact find?_filter_not _ _
    · have hp : ∀ e : EventRow,
          ((if e.id == bk.event_id then
              { e with available_seats := e.available_seats + bk.seats } else e).id
            == bk.event_id) = (e.id == bk.event_id) := by
        intro e
        by_cases h : (e.id == bk.event_id) = true <;> simp [h]
      rw [find?_map_pres _ _ hp, hev]
      have hid : ev.id = bk.event_id := by simpa using List.find?_some hev
      simp [hid]
  · intro hnone
    unfold cancelBooking
    rw [hnone]
    exact ⟨rfl, rfl⟩

/-- Witness for C4: cancelling user 1's 2-seat booking on event 1 restores the
counter from 3 to 5 and removes the row; cancelling with no matching booking
fails and changes nothing. -/
theorem cancelBooking_restores_seats_witness :
    ((cancelBooking dbE5B 1 1).1 = .ok () ∧
      (cancelBooking dbE5B 1 1).2.bookings.find?
        (fun b => b.id == 1 && b.user_id == 1) = none ∧
      (cancelBooking dbE5B 1 1).2.events.find? (fun e => e.id == 1) =
        some ⟨1, "T", none, 0, "L", 5, 1⟩) ∧
    ((cancelBooking dbE5 1 1).1 = .error .NotFoundOrForbidden ∧
      (cancelBooking dbE5 1 1).2 = dbE5) := by
  constructor
  · have h := (cancelBooking_restores_seats dbE5B 1 1).1 ⟨1, 1, 1, 2⟩
      ⟨1, "T", none, 0, "L", 3, 1⟩ (by decide) (by decide)
    simpa using h
  · exact (cancelBooking_restores_seats dbE5 1 1).2 (by decide)

end EventDb

namespace EventDb

/-! ### C5 -/

/-- C5: updating a booking from `a` to `b > 0` seats (booking matches id and
user, event has `available_seats ≥ b - a`) sets the booking's seats to `b` and
changes the event's `available_seats` by exactly `a - b`; and the round trip —
create a booking with `k` seats, then update it to `k` — returns the booking
unchanged and leaves the state identical to the pre-update (post-create)
state. -/
theorem updateBooking_delta_roundtrip :
    (∀ (db : DB) (uid bid : Nat) (a b : Int) (bk : BookingRow) (ev : EventRow),
      db.bookings.find? (fun x => x.id == bid && x.user_id == uid) = some bk →
      db.bookings.find? (fun x => x.id == bid) = some bk →
      bk.seats = a → 0 < b →
      db.events.find? (fun e => e.id == bk.event_id) = some ev →
      b - a ≤ ev.available_seats →
      (updateBooking db uid bid b).1 = .ok { bk with seats := b } ∧
      (updateBooking db uid bid b).2.bookings.find? (fun x => x.id == bid) =
        some { bk with seats := b } ∧
      (updateBooking db uid bid b).2.events.find? (fun e => e.id == bk.event_id) =
        some { ev with available_seats := ev.available_seats + (a - b) }) ∧
    (∀ (db : DB) (uid eid : Nat) (k : Int) (ev : EventRow),
      db.events.find? (fun e => e.id == eid) = some ev →
      db.bookings.filter (fun x => x.event_id == eid && x.user_id == uid) = [] →
      (∀ x ∈ db.bookings, x.id ≠ db.nextBookingId) →
      0 < k → k ≤ ev.available_seats →
      updateBooking (createBooking db uid eid k).2 uid db.nextBookingId k =
        (.ok ⟨db.nextBookingId, eid, uid, k⟩, (createBooking db uid eid k).2)) := by
  constructor
  · intro db uid bid a b bk ev hbk1 hbk2 ha hb hev havail
    unfold updateBooking
    rw [if_neg (by omega), hbk1]
    dsimp only
    rw [hev]
    dsimp only
    rw [if_neg (by omega)]
    refine ⟨rfl, ?_, ?_⟩
    · have hp : ∀ x : BookingRow,
          ((if x.id == bid then { x with seats := b } else x).id == bid) = (x.id == bid) := by
        intro x
        by_cases h : (x.id == bid) = true <;> simp [h]
      rw [find?_map_pres _ _ hp, hbk2]
      have hidb : bk.id = bid := by simpa using List.find?_some hbk2
      simp [hidb]
    · have hp : ∀ e : EventRow,
          ((if e.id == bk.event_id then
              { e with available_seats := e.available_seats - (b - bk.seats) } else e).id
            == bk.event_id) = (e.id == bk.event_id) := by
        intro e
        by_cases h : (e.id == bk.event_id) = true <;> simp [h]
      rw [find?_map_pres _ _ hp, hev]
      have hid : ev.id = bk.event_id := by simpa using List.find?_some hev
      have harith : ev.available_seats - (b - bk.seats) = ev.available_seats + (a - b) := by
        omega
      simp [hid, harith]
  · intro db uid eid k ev hev hnb hfresh hk hkN
    rw [createBooking_ok db uid eid k ev hev hnb hk (by omega)]
    dsimp only
    unfold updateBooking
    rw [if_neg (by omega)]
    have hpre : db.bookings.find?
        (fun x => x.id == db.nextBookingId && x.user_id == uid) = none := by
      rw [List.find?_eq_none]
      intro x hx
      have hne := hfresh x hx
      simp [hne]
    rw [List.find?_append, hpre]
    have hsingle : ([(⟨db.nextBookingId, eid, uid, k⟩ : BookingRow)]).find?
        (fun x => x.id == db.nextBookingId && x.user_id == uid) =
        some ⟨db.nextBookingId, eid, uid, k⟩ := by
      simp [List.find?]
    rw [Option.none_or, hsingle]
    dsimp only
    have hid : ev.id = eid := by simpa using List.find?_some hev
    have hp : ∀ e : EventRow,
        ((if e.id == eid then { e with available_seats := e.available_seats - k } else e).id
          == eid) = (e.id == eid) := by
      intro e
      by_cases h : (e.id == eid) = true <;> simp [h]
    have hev2 : (db.events.map (fun e =>
        if e.id == eid then { e with available_seats := e.available_seats - k } else e)).find?
        (fun e => e.id == eid) =
        some { ev with available_seats := ev.available_seats - k } := by
      rw [find?_map_pres _ _ hp, hev]
      simp [hid]
    rw [hev2]
    dsimp only
    rw [if_neg (by omega)]
    have hbmap : (db.bookings ++ [(⟨db.nextBookingId, eid, uid, k⟩ : BookingRow)]).map
        (fun x => if x.id == db.nextBookingId then { x with seats := k } else x) =
        db.bookings ++ [⟨db.nextBookingId, eid, uid, k⟩] := by
      apply map_eq_self_of
      intro x hx
      rcases List.mem_append.1 hx with hx1 | hx2
      · have hne := hfresh x hx1
        rw [if_neg (by simp [hne])]
      · have : x = ⟨db.nextBookingId, eid, uid, k⟩ := by simpa using hx2
        subst this
        simp
    have hemap : ((db.events.map (fun e =>
        if e.id == eid then { e with available_seats := e.available_seats - k } else e)).map
        (fun e => if e.id == eid then
          { e with available_seats := e.available_seats - (k - k) } else e)) =
        db.events.map (fun e =>
          if e.id == eid then { e with available_seats := e.available_seats - k } else e) := by
      apply map_eq_self_of
      intro y _
      by_cases hy : (y.id == eid) = true
      · have harith : y.available_seats - (k - k) = y.available_seats := by ring
        simp [hy, harith]
      · simp [hy]
    rw [hbmap, hemap]

/-- Witness for C5: updating the 2-seat booking to 3 seats consumes one more
seat (3 → 2 available); creating then updating to the same count leaves the
state identical. -/
theorem updateBooking_delta_roundtrip_witness :
    ((updateBooking dbE5B 1 1 3).1 = .ok ⟨1, 1, 1, 3⟩ ∧
      (updateBooking dbE5B 1 1 3).2.bookings.find? (fun x => x.id == 1) =
        some ⟨1, 1, 1, 3⟩ ∧
      (updateBooking dbE5B 1 1 3).2.events.find? (fun e => e.id == 1) =
        some ⟨1, "T", none, 0, "L", 2, 1⟩) ∧
    updateBooking (createBooking dbE5 1 1 2).2 1 1 2 =
      (.ok ⟨1, 1, 1, 2⟩, (createBooking dbE5 1 1 2).2) := by
  constructor
  · have h := updateBooking_delta_roundtrip.1 dbE5B 1 1 2 3 ⟨1, 1, 1, 2⟩
      ⟨1, "T", none, 0, "L", 3, 1⟩ (by decide) (by decide) (by decide) (by decide)
      (by decide) (by decide)
    simpa using h
  · exact updateBooking_delta_roundtrip.2 dbE5 1 1 2 ⟨1, "T", none, 0, "L", 5, 1⟩
      (by decide) (by decide) (by decide) (by decide) (by decide)

end EventDb

namespace EventDb

/-! ### C9 -/

/-- C9: login with correct credentials returns a token whose claims decode to
the stored user's id and email; and the two failure cases — unknown email, and
known email with mismatching password — return the identical
`InvalidCredentials` error, so the responses do not distinguish them. -/
theorem login_token_and_uniform_error (verify : String → String → Bool) (db : DB) :
    (∀ (email password : String) (u : UserRow),
      db.users.find? (fun x => x.email == email) = some u →
      verify password u.password = true →
      ∃ t : Token, login verify db email password = .ok (t, u) ∧
        jwtDecode t = ⟨u.id, u.email⟩) ∧
    (∀ (e1 p1 e2 p2 : String) (u2 : UserRow),
      db.users.find? (fun x => x.email == e1) = none →
      db.users.find? (fun x => x.email == e2) = some u2 →
      verify p2 u2.password = false →
      login verify db e1 p1 = .error .InvalidCredentials ∧
      login verify db e2 p2 = .error .InvalidCredentials ∧
      login verify db e1 p1 = login verify db e2 p2) := by
  constructor
  · intro email password u hu hv
    refine ⟨jwtSign ⟨u.id, u.email⟩, ?_, rfl⟩
    unfold login
    rw [hu]
    dsimp only
    rw [if_pos hv]
  · intro e1 p1 e2 p2 u2 h1 h2 hv
    have ha : login verify db e1 p1 = .error .InvalidCredentials := by
      unfold login
      rw [h1]
    have hb : login verify db e2 p2 = .error .InvalidCredentials := by
      unfold login
      rw [h2]
      dsimp only
      rw [if_neg (by simp [hv])]
    exact ⟨ha, hb, by rw [ha, hb]⟩

/-- Witness for C9 on a concrete store: correct credentials yield a token
decoding to (1, "a@x"); an unknown email and a wrong password yield the same
`InvalidCredentials` response. -/
theorem login_token_and_uniform_error_witness :
    (∃ t : Token, login idVerify dbU1 "a@x" "ha" = .ok (t, ⟨1, "Alice", "a@x", "ha"⟩) ∧
      jwtDecode t = ⟨1, "a@x"⟩) ∧
    (login idVerify dbU1 "z@x" "p" = .error .InvalidCredentials ∧
      login idVerify dbU1 "a@x" "bad" = .error .InvalidCredentials ∧
      login idVerify dbU1 "z@x" "p" = login idVerify dbU1 "a@x" "bad") :=
  ⟨(login_token_and_uniform_error idVerify dbU1).1 "a@x" "ha"
      ⟨1, "Alice", "a@x", "ha"⟩ (by decide) (by decide),
   (login_token_and_uniform_error idVerify dbU1).2 "z@x" "p" "a@x" "bad"
      ⟨1, "Alice", "a@x", "ha"⟩ (by decide) (by decide) (by decide)⟩

/-! ### C10 -/

/-- C10 counterexample: a PUT /api/profile request that supplies a name and an
email (no password) does NOT always set the user's email to the supplied
value — when the email belongs to a different user the UNIQUE constraint
fires, the handler answers `DuplicateEmail`, and nothing changes. -/
theorem updateProfile_email_collision :
    (updateProfile idHash dbTwoUsers 1 "Alice2" "b@x" none).1 = .error .DuplicateEmail ∧
    ((updateProfile idHash dbTwoUsers 1 "Alice2" "b@x" none).2.users.find?
      (fun x => x.id == 1)).map UserRow.email ≠ some "b@x" := by
  exact ⟨rfl, by decide⟩

/-- C10 amended: for a profile update carrying a name and an email but no
password, PROVIDED the authenticated user's row exists and the supplied email
does not belong to a different user, the user's stored password hash is
unchanged while name and email are set to the supplied values, every other
user's row is untouched, and the events and bookings tables are unchanged. -/
theorem updateProfile_frame (hashFn : String → String) (db : DB) (uid : Nat)
    (nm em : String) (u : UserRow)
    (hu : db.users.find? (fun x => x.id == uid) = some u)
    (hcol : ∀ v ∈ db.users, v.email = em → v.id = uid) :
    (updateProfile hashFn db uid nm em none).1 = .ok { u with name := nm, email := em } ∧
    (updateProfile hashFn db uid nm em none).2.users.find? (fun x => x.id == uid) =
      some { u with name := nm, email := em } ∧
    ((updateProfile hashFn db uid nm em none).2.users.find? (fun x => x.id == uid)).map
      UserRow.password = some u.password ∧
    (∀ v ∈ db.users, v.id ≠ uid → v ∈ (updateProfile hashFn db uid nm em none).2.users) ∧
    (∀ v ∈ (updateProfile hashFn db uid nm em none).2.users, v.id ≠ uid → v ∈ db.users) ∧
    (updateProfile hashFn db uid nm em none).2.events = db.events ∧
    (updateProfile hashFn db uid nm em none).2.bookings = db.bookings := by
  have hid : u.id = uid := by simpa using List.find?_some hu
  have hmem := List.mem_of_find?_eq_some hu
  have hexists : ¬ db.users.all (fun x => x.id != uid) = true := by
    intro hall
    have := List.all_eq_true.1 hall u hmem
    simp [hid] at this
  have hnocol : ¬ db.users.any (fun x => x.email == em && x.id != uid) = true := by
    intro hany
    rcases List.any_eq_true.1 hany with ⟨v, hv, hvp⟩
    simp only [Bool.and_eq_true, beq_iff_eq, bne_iff_ne, ne_eq] at hvp
    exact hvp.2 (hcol v hv hvp.1)
  unfold updateProfile
  rw [if_neg hexists, if_neg hnocol]
  dsimp only
  have hp : ∀ x : UserRow,
      ((if x.id == uid then { x with name := nm, email := em } else x).id == uid)
        = (x.id == uid) := by
    intro x
    by_cases h : (x.id == uid) = true <;> simp [h]
  have hfind : (db.users.map (fun x =>
      if x.id == uid then { x with name := nm, email := em } else x)).find?
      (fun x => x.id == uid) = some { u with name := nm, email := em } := by
    rw [find?_map_pres _ _ hp, hu]
    simp [hid]
  refine ⟨?_, hfind, ?_, ?_, ?_, rfl, rfl⟩
  · rw [hfind]
    rfl
  · rw [hfind]
    rfl
  · intro v hv hvne
    refine List.mem_map.2 ⟨v, hv, ?_⟩
    rw [if_neg (by simp [hvne])]
  · intro v hv hvne
    rcases List.mem_map.1 hv with ⟨w, hw, hwv⟩
    by_cases hwid : (w.id == uid) = true
    · rw [if_pos hwid] at hwv
      have : v.id = uid := by
        rw [← hwv]
        simpa using hwid
      exact absurd this hvne
    · rw [if_neg hwid] at hwv
      rw [← hwv]
      exact hw

/-- Witness for C10 (amended): updating user 1's profile in the two-user store
to a fresh email sets name and email, keeps the password hash, and leaves user
2, the events and the bookings untouched. -/
theorem updateProfile_frame_witness :
    (updateProfile idHash dbTwoUsers 1 "Alice2" "a2@x" none).1 =
      .ok ⟨1, "Alice2", "a2@x", "ha"⟩ ∧
    (updateProfile idHash dbTwoUsers 1 "Alice2" "a2@x" none).2.users.find?
      (fun x => x.id == 1) = some ⟨1, "Alice2", "a2@x", "ha"⟩ ∧
    ((updateProfile idHash dbTwoUsers 1 "Alice2" "a2@x" none).2.users.find?
      (fun x => x.id == 1)).map UserRow.password = some "ha" ∧
    (⟨2, "Bob", "b@x", "hb"⟩ : UserRow) ∈
      (updateProfile idHash dbTwoUsers 1 "Alice2" "a2@x" none).2.users ∧
    (updateProfile idHash dbTwoUsers 1 "Alice2" "a2@x" none).2.events =
      dbTwoUsers.events ∧
    (updateProfile idHash dbTwoUsers 1 "Alice2" "a2@x" none).2.bookings =
      dbTwoUsers.bookings := by
  have h := updateProfile_frame idHash dbTwoUsers 1 "Alice2" "a2@x"
    ⟨1, "Alice", "a@x", "ha"⟩ (by decide) (by decide)
  refine ⟨h.1, h.2.1, ?_, ?_, h.2.2.2.2.2.1, h.2.2.2.2.2.2⟩
  · simpa using h.2.2.1
  · exact h.2.2.2.1 ⟨2, "Bob", "b@x", "hb"⟩ (by decide) (by decide)

end EventDb

namespace EventDb

/-! ### C7 -/

/-- C7: evaluation at the failing input.  In `dbOther`, event 1 is owned by
user 2 and carries user 2's booking.  User 1's delete request fails with
`NotFoundOrForbidden`, yet the state is NOT unchanged: the handler has already
run the unscoped `DELETE FROM bookings WHERE event_id = 1`, so the booking
rows referencing the event are gone while the event row survives. -/
theorem deleteEvent_unauthorized_cascade :
    (deleteEvent dbOther 1 1).1 = .error .NotFoundOrForbidden ∧
    dbOther.bookings ≠ [] ∧
    (deleteEvent dbOther 1 1).2.bookings = [] ∧
    (deleteEvent dbOther 1 1).2.events = dbOther.events := by
  exact ⟨rfl, by decide, rfl, rfl⟩

/-! ### C8 -/

/-- C8 counterexample: the two variants' create-booking handlers do NOT return
the same result on every request: on a zero-seat request the later variant
rejects with `InvalidSeatCount` and changes nothing, while the simpler variant
(which has no positivity check) inserts a zero-seat booking row. -/
theorem createBooking_variants_differ :
    (createBooking dbE5 1 1 0).1 = .error .InvalidSeatCount ∧
    (createBookingSimple dbE5 1 1 0).1 = .ok ⟨1, 1, 1, 0⟩ ∧
    (createBooking dbE5 1 1 0).2 = dbE5 ∧
    (createBookingSimple dbE5 1 1 0).2 ≠ dbE5 := by
  exact ⟨rfl, rfl, rfl, by decide⟩

/-- C8 amended: for every request with a positive seat count the two variants'
create-booking handlers return the same result and perform the same state
change; they differ exactly on non-positive seat counts, which only the later
variant rejects. -/
theorem createBooking_variants_agree_pos (db : DB) (uid eid : Nat) (k : Int)
    (hk : 0 < k) :
    createBookingSimple db uid eid k = createBooking db uid eid k := by
  have h : ¬ k ≤ 0 := by omega
  unfold createBooking createBookingSimple
  rw [if_neg h]

/-- Witness for C8 (amended) at a concrete request. -/
theorem createBooking_variants_agree_pos_witness :
    createBookingSimple dbE5 1 1 2 = createBooking dbE5 1 1 2 :=
  createBooking_variants_agree_pos dbE5 1 1 2 (by decide)

end EventDb

namespace EventDb

/-! ### Seat non-negativity helper lemmas -/

/-- Decrementing by `d` the (unique) event with id `eid`, which the handler
checked has at least `d` seats, keeps every counter non-negative. -/
theorem nonneg_after_decrement {l : List EventRow} (eid : Nat) (d : Int) (ev : EventRow)
    (hE : ∀ e ∈ l, 0 ≤ e.available_seats)
    (hnd : (l.map EventRow.id).Nodup)
    (hev : l.find? (fun e => e.id == eid) = some ev)
    (hd : d ≤ ev.available_seats) :
    ∀ e' ∈ l.map (fun e =>
      if e.id == eid then { e with available_seats := e.available_seats - d } else e),
      0 ≤ e'.available_seats := by
  intro e' he'
  rcases List.mem_map.1 he' with ⟨e0, he0, rfl⟩
  by_cases h : (e0.id == eid) = true
  · have hevmem := List.mem_of_find?_eq_some hev
    have hevid : ev.id = eid := by simpa using List.find?_some hev
    have he0id : e0.id = eid := by simpa using h
    have he0ev : e0 = ev :=
      List.inj_on_of_nodup_map hnd he0 hevmem (by rw [he0id, hevid])
    rw [if_pos h]
    dsimp only
    rw [he0ev]
    omega
  · rw [if_neg h]
    exact hE e0 he0

/-- Adding a non-negative count onto any event keeps every counter
non-negative. -/
theorem nonneg_after_increment {l : List EventRow} (x : Nat) (s : Int)
    (hE : ∀ e ∈ l, 0 ≤ e.available_seats) (hs : 0 ≤ s) :
    ∀ e' ∈ l.map (fun e =>
      if e.id == x then { e with available_seats := e.available_seats + s } else e),
      0 ≤ e'.available_seats := by
  intro e' he'
  rcases List.mem_map.1 he' with ⟨e0, he0, rfl⟩
  by_cases h : (e0.id == x) = true
  · rw [if_pos h]
    dsimp only
    have := hE e0 he0
    omega
  · rw [if_neg h]
    exact hE e0 he0

/-! ### C2 -/

/-- C2 counterexample: `available_seats ≥ 0` does NOT hold in every reachable
state after a booking operation completes.  `dbNeg4` is reachable (register,
create event with 5 seats, book 2, then update the event setting
`available_seats := -3`, which nothing validates); cancelling the booking then
completes successfully and leaves the event at `-1`. -/
theorem cancelBooking_leaves_negative_seats :
    Reachable dbNeg4 ∧
    (cancelBooking dbNeg4 1 1).1 = .ok () ∧
    ∃ e ∈ (cancelBooking dbNeg4 1 1).2.events, e.available_seats < 0 := by
  refine ⟨?_, rfl, ?_⟩
  · exact Reachable.step
      (Reachable.step
        (Reachable.step
          (Reachable.step Reachable.init (Step.register idHash initialDB "A" "a@x" "p"))
          (Step.eventCreate dbNeg1 1 "T" none 0 "L" 5))
        (Step.bookingCreate dbNeg2 1 1 2))
      (Step.eventUpdate dbNeg3 1 1 "T" none 0 "L" (-3))
  · exact ⟨⟨1, "T", none, 0, "L", -1, 1⟩, by decide, by decide⟩

/-- C2 amended: after any booking-service operation (create, update or cancel)
completes, every event's `available_seats` is ≥ 0 — PROVIDED that before the
operation every event's counter is ≥ 0, every booking's seat count is ≥ 0, and
event ids are distinct.  The unrestricted claim fails because event
create/update perform no positivity validation and can seed negative
counters (see the counterexample). -/
theorem bookingOps_preserve_nonneg (db : DB) (hE : eventsNonneg db)
    (hB : bookingSeatsNonneg db) (hI : eventIdsNodup db) :
    (∀ (uid eid : Nat) (k : Int), eventsNonneg (createBooking db uid eid k).2) ∧
    (∀ (uid bid : Nat) (k : Int), eventsNonneg (updateBooking db uid bid k).2) ∧
    (∀ (uid bid : Nat), eventsNonneg (cancelBooking db uid bid).2) := by
  refine ⟨?_, ?_, ?_⟩
  · intro uid eid k
    by_cases h1 : k ≤ 0
    · unfold createBooking
      rw [if_pos h1]
      exact hE
    · by_cases h2 : 0 <
        (db.bookings.filter (fun b => b.event_id == eid && b.user_id == uid)).length
      · unfold createBooking
        rw [if_neg h1, if_pos h2]
        exact hE
      · rcases hfind : db.events.find? (fun e => e.id == eid) with _ | ev
        · unfold createBooking
          rw [if_neg h1, if_neg h2, hfind]
          exact hE
        · by_cases h3 : ev.available_seats < k
          · unfold createBooking
            rw [if_neg h1, if_neg h2, hfind]
            dsimp only
            rw [if_pos h3]
            exact hE
          · have hnb : db.bookings.filter
                (fun b => b.event_id == eid && b.user_id == uid) = [] := by
              rw [← List.length_eq_zero]
              omega
            rw [createBooking_ok db uid eid k ev hfind hnb (by omega) h3]
            intro e' he'
            exact nonneg_after_decrement eid k ev hE hI hfind (by omega) e' he'
  · intro uid bid k
    by_cases h1 : k ≤ 0
    · unfold updateBooking
      rw [if_pos h1]
      exact hE
    · rcases hbk : db.bookings.find? (fun b => b.id == bid && b.user_id == uid) with _ | bk
      · unfold updateBooking
        rw [if_neg h1, hbk]
        exact hE
      · rcases hev : db.events.find? (fun e => e.id == bk.event_id) with _ | ev
        · unfold updateBooking
          rw [if_neg h1, hbk]
          dsimp only
          rw [hev]
          exact hE
        · by_cases h3 : ev.available_seats < k - bk.seats
          · unfold updateBooking
            rw [if_neg h1, hbk]
            dsimp only
            rw [hev]
            dsimp only
            rw [if_pos h3]
            exact hE
          · unfold updateBooking
            rw [if_neg h1, hbk]
            dsimp only
            rw [hev]
            dsimp only
            rw [if_neg h3]
            intro e' he'
            exact nonneg_after_decrement bk.event_id (k - bk.seats) ev hE hI hev
              (by omega) e' he'
  · intro uid bid
    rcases hbk : db.bookings.find? (fun b => b.id == bid && b.user_id == uid) with _ | bk
    · unfold cancelBooking
      rw [hbk]
      exact hE
    · unfold cancelBooking
      rw [hbk]
      dsimp only
      intro e' he'
      exact nonneg_after_increment bk.event_id bk.seats hE
        (hB bk (List.mem_of_find?_eq_some hbk)) e' he'

/-- Witness for C2 (amended) at a concrete well-formed state. -/
theorem bookingOps_preserve_nonneg_witness :
    eventsNonneg (updateBooking dbE5B 1 1 3).2 ∧
    eventsNonneg (cancelBooking dbE5B 1 1).2 :=
  ⟨(bookingOps_preserve_nonneg dbE5B
      (by show ∀ e ∈ dbE5B.events, 0 ≤ e.available_seats; decide)
      (by show ∀ b ∈ dbE5B.bookings, 0 ≤ b.seats; decide)
      (by show (dbE5B.events.map EventRow.id).Nodup; decide)).2.1 1 1 3,
   (bookingOps_preserve_nonneg dbE5B
      (by show ∀ e ∈ dbE5B.events, 0 ≤ e.available_seats; decide)
      (by show ∀ b ∈ dbE5B.bookings, 0 ≤ b.seats; decide)
      (by show (dbE5B.events.map EventRow.id).Nodup; decide)).2.2 1 1⟩

end EventDb

namespace EventDb

/-! ### Booking-pair uniqueness helper lemmas -/

/-- A seats-only update leaves the (event_id, user_id) pairs unchanged. -/
theorem pairs_map_seats (l : List BookingRow) (bid : Nat) (s : Int) :
    (l.map (fun b => if b.id == bid then { b with seats := s } else b)).map
      (fun b => (b.event_id, b.user_id)) =
    l.map (fun b => (b.event_id, b.user_id)) := by
  rw [List.map_map]
  apply List.map_congr_left
  intro b _
  by_cases hb : (b.id == bid) = true <;> simp [Function.comp, hb]

/-- Every mutating request preserves the at-most-one-booking-per-(event, user)
invariant. -/
theorem step_preserves_bookingPairsNodup {db db' : DB} (hs : Step db db')
    (h : bookingPairsNodup db) : bookingPairsNodup db' := by
  unfold bookingPairsNodup bookingPairs at h ⊢
  cases hs
  case register hashFn name email password =>
    unfold registerUser
    split <;> exact h
  case profile hashFn uid name email password =>
    unfold updateProfile
    split
    · exact h
    · split
      · exact h
      · exact h
  case eventCreate uid title description date location available_seats =>
    exact h
  case eventUpdate uid eid title description date location available_seats =>
    unfold updateEvent
    split <;> exact h
  case eventDelete uid eid =>
    unfold deleteEvent
    split <;> exact h.sublist ((List.filter_sublist _).map _)
  case roomRename uid oldName newName =>
    unfold renameRoom
    split <;> exact h
  case roomDelete uid name =>
    unfold deleteRoom
    split <;> exact h.sublist ((List.filter_sublist _).map _)
  case bookingCancel uid bid =>
    unfold cancelBooking
    split
    · exact h
    · exact h.sublist ((List.filter_sublist _).map _)
  case bookingUpdate uid bid k =>
    by_cases h1 : k ≤ 0
    · unfold updateBooking
      rw [if_pos h1]
      exact h
    · rcases hbk : db.bookings.find? (fun b => b.id == bid && b.user_id == uid) with _ | bk
      · unfold updateBooking
        rw [if_neg h1, hbk]
        exact h
      · rcases hev : db.events.find? (fun e => e.id == bk.event_id) with _ | ev
        · unfold updateBooking
          rw [if_neg h1, hbk]
          dsimp only
          rw [hev]
          exact h
        · by_cases h3 : ev.available_seats < k - bk.seats
          · unfold updateBooking
            rw [if_neg h1, hbk]
            dsimp only
            rw [hev]
            dsimp only
            rw [if_pos h3]
            exact h
          · unfold updateBooking
            rw [if_neg h1, hbk]
            dsimp only
            rw [hev]
            dsimp only
            rw [if_neg h3]
            dsimp only
            rw [pairs_map_seats]
            exact h
  case bookingCreate uid eid k =>
    by_cases h1 : k ≤ 0
    · unfold createBooking
      rw [if_pos h1]
      exact h
    · by_cases h2 : 0 <
        (db.bookings.filter (fun b => b.event_id == eid && b.user_id == uid)).length
      · unfold createBooking
        rw [if_neg h1, if_pos h2]
        exact h
      · rcases hfind : db.events.find? (fun e => e.id == eid) with _ | ev
        · unfold createBooking
          rw [if_neg h1, if_neg h2, hfind]
          exact h
        · by_cases h3 : ev.available_seats < k
          · unfold createBooking
            rw [if_neg h1, if_neg h2, hfind]
            dsimp only
            rw [if_pos h3]
            exact h
          · have hnb : db.bookings.filter
                (fun b => b.event_id == eid && b.user_id == uid) = [] := by
              rw [← List.length_eq_zero]
              omega
            rw [createBooking_ok db uid eid k ev hfind hnb (by omega) h3]
            dsimp only
            rw [List.map_append, List.nodup_append]
            refine ⟨h, by simp, ?_⟩
            intro p hp hq
            rcases List.mem_map.1 hp with ⟨b, hbmem, hbp⟩
            have hq2 : p = (eid, uid) := by simpa using hq
            rw [hq2] at hbp
            have hb1 : b.event_id = eid := congrArg Prod.fst hbp
            have hb2 : b.user_id = uid := congrArg Prod.snd hbp
            have hmemf : b ∈ db.bookings.filter
                (fun x => x.event_id == eid && x.user_id == uid) :=
              List.mem_filter.2 ⟨hbmem, by simp [hb1, hb2]⟩
            exact h2 (List.length_pos_of_mem hmemf)

/-- Every reachable state satisfies the booking-pair uniqueness invariant. -/
theorem reachable_bookingPairsNodup {db : DB} (h : Reachable db) :
    bookingPairsNodup db := by
  induction h with
  | init =>
      unfold bookingPairsNodup bookingPairs initialDB
      simp
  | step _ hs ih => exact step_preserves_bookingPairsNodup hs ih

end EventDb

namespace EventDb

/-! ### C3 -/

/-- C3: in every reachable state there is at most one booking row per
(event_id, user_id) pair; a second create for the same (user, event) — with a
positive seat count, non-positive counts being rejected earlier as
`InvalidSeatCount` — always fails with `AlreadyBooked` and leaves the state
(in particular the booking rows) unchanged; and the schema's
`UNIQUE (event_id, user_id)` constraint rejects a duplicate insert on its own,
independently of the application-level pre-check. -/
theorem booking_pair_uniqueness :
    (∀ db : DB, Reachable db → bookingPairsNodup db) ∧
    (∀ (db : DB) (uid eid : Nat) (k : Int), 0 < k →
      0 < (db.bookings.filter (fun b => b.event_id == eid && b.user_id == uid)).length →
      createBooking db uid eid k = (.error .AlreadyBooked, db)) ∧
    (∀ (db : DB) (eid uid : Nat) (k : Int) (b : BookingRow), b ∈ db.bookings →
      b.event_id = eid → b.user_id = uid →
      insertBooking db eid uid k = .error ()) := by
  refine ⟨?_, ?_, ?_⟩
  · intro db h
    exact reachable_bookingPairsNodup h
  · intro db uid eid k hk hb
    unfold createBooking
    rw [if_neg (by omega), if_pos hb]
  · intro db eid uid k b hbmem hb1 hb2
    unfold insertBooking
    rw [if_pos (List.any_eq_true.2 ⟨b, hbmem, by simp [hb1, hb2]⟩)]

/-- Witness for C3: the invariant holds at the reachable state `dbNeg3`; a
second create by user 1 on event 1 fails with `AlreadyBooked` and changes
nothing; the raw insert for the already-booked pair is rejected by the
constraint. -/
theorem booking_pair_uniqueness_witness :
    bookingPairsNodup dbNeg3 ∧
    createBooking dbE5B 1 1 2 = (.error .AlreadyBooked, dbE5B) ∧
    insertBooking dbE5B 1 1 3 = .error () := by
  refine ⟨booking_pair_uniqueness.1 dbNeg3 ?_,
    booking_pair_uniqueness.2.1 dbE5B 1 1 2 (by decide) (by decide),
    booking_pair_uniqueness.2.2 dbE5B 1 1 3 ⟨1, 1, 1, 2⟩ (by decide) (by decide) (by decide)⟩
  exact Reachable.step
    (Reachable.step
      (Reachable.step Reachable.init (Step.register idHash initialDB "A" "a@x" "p"))
      (Step.eventCreate dbNeg1 1 "T" none 0 "L" 5))
    (Step.bookingCreate dbNeg2 1 1 2)

end EventDb
